import Mathlib

/-!
Shallow embedding of `torchgeo/trainers/base.py` (`BaseTask`, an abstract
LightningModule subclass) and proofs about its contract.

Modelling conventions:
* Hyperparameter values are rationals or strings (`HValue`); the Lightning
  hyperparameter store (`self.hparams`) is an association list `HParams`.
  Indexing a missing key raises `KeyError`, modelled as `Except.error`.
* A Python subclass of `BaseTask` is a record `Subclass` of its optional
  method overrides (`configure_losses`, `configure_metrics`,
  `configure_models`), its constructor arguments (captured by
  `save_hyperparameters`), and an optional override of the class attribute
  `monitor`.  A hook override reads the hyperparameters and transforms the
  module-owned state (`model`, trainable parameters, subclass extras).
* `BaseTask.__init__` is `BaseTask.init`: it fails with the abstract-method
  error when `configure_models` is not overridden (Python ABC refuses
  instantiation), otherwise saves the hyperparameters and runs the three
  hooks in order, recording the call sequence as a list of `InitEvent`s.
* Machine floats of the source (`lr=1e-3`) are embedded as rationals.
-/

namespace TorchGeo

/-- Value stored in the Lightning hyperparameter store: the claims only need
numeric values (embedded as rationals) and non-numeric ones (strings). -/
inductive HValue where
  | num (q : ℚ)
  | str (s : String)
deriving DecidableEq

/-- The hyperparameter store `self.hparams`: an association of names to values. -/
abbrev HParams := List (String × HValue)

/-- Errors raised while building the optimizer configuration: `KeyError` from
indexing `self.hparams`, or `TypeError` from handing a non-numeric value to an
optimizer or scheduler constructor. -/
inductive ConfigError where
  | keyError (key : String)
  | typeError
deriving DecidableEq

/-- Dictionary lookup in the hyperparameter store. -/
def HParams.find : HParams → String → Option HValue
  | [], _ => none
  | (k, v) :: rest, key => if k = key then some v else HParams.find rest key

/-- Python indexing `self.hparams[key]`: raises `KeyError` when absent. -/
def HParams.getItem (hp : HParams) (key : String) : Except ConfigError HValue :=
  match HParams.find hp key with
  | some v => Except.ok v
  | none => Except.error (ConfigError.keyError key)

/-- Module-owned mutable state of a task: the `model` slot (unset until a
`configure_models` override assigns it), the trainable parameters enumerated by
`self.parameters()` (identified by `Nat` ids), and whatever extra attributes
the subclass hooks install (loss criteria, metrics), of type `σ`.
The model is a function from positional arguments `α` and keyword arguments
`κ` to outputs `β`. -/
structure ModuleState (α κ β σ : Type) where
  model : Option (α → κ → β)
  params : List Nat
  extra : σ

/-- Full state of a constructed task: the `monitor` class attribute as seen on
the instance, the saved hyperparameters, and the module-owned state. -/
structure TaskState (α κ β σ : Type) where
  monitor : String
  hparams : HParams
  model : Option (α → κ → β)
  params : List Nat
  extra : σ

/-- Class attribute `monitor = "val_loss"` of `BaseTask`. -/
def BaseTask.monitor : String := "val_loss"

/-- Default `configure_losses` hook: the source body is empty (a docstring
only), so it changes nothing and returns `None`. -/
def BaseTask.configure_losses {α κ β σ : Type} (_hp : HParams)
    (m : ModuleState α κ β σ) : ModuleState α κ β σ :=
  m

/-- Default `configure_metrics` hook: the source body is empty (a docstring
only), so it changes nothing and returns `None`. -/
def BaseTask.configure_metrics {α κ β σ : Type} (_hp : HParams)
    (m : ModuleState α κ β σ) : ModuleState α κ β σ :=
  m

/-- The hook calls `BaseTask.__init__` performs, in the order performed. -/
inductive InitEvent where
  | saveHyperparameters
  | callConfigureLosses
  | callConfigureMetrics
  | callConfigureModels
deriving DecidableEq

/-- Failure of instantiation: Python's ABC machinery raises `TypeError`
("can't instantiate abstract class") when `configure_models` has no
implementation. -/
inductive InitError where
  | abstractMethod
deriving DecidableEq

/-- A Python subclass of `BaseTask`: its constructor arguments (what
`save_hyperparameters` captures), its optional overrides of the three hooks
(`none` = inherited; for `configure_models`, `none` = still abstract), an
optional override of the `monitor` class attribute, and the initial value of
its extra attributes.  Instantiating `BaseTask` itself is the record with all
overrides `none`. -/
structure Subclass (α κ β σ : Type) where
  initArgs : HParams
  losses : Option (HParams → ModuleState α κ β σ → ModuleState α κ β σ)
  metrics : Option (HParams → ModuleState α κ β σ → ModuleState α κ β σ)
  models : Option (HParams → ModuleState α κ β σ → ModuleState α κ β σ)
  monitorOverride : Option String
  extra0 : σ

/-- Embedding of `BaseTask.__init__` applied to a (possibly trivial) subclass:
if `configure_models` is not implemented the ABC machinery refuses
instantiation; otherwise the constructor saves the hyperparameters and then
runs `configure_losses`, `configure_metrics`, `configure_models` in that
order, each dispatching to the subclass override when present and to the
inherited default otherwise.  The second component records every hook
invocation the constructor makes, in order. -/
def BaseTask.init {α κ β σ : Type} (sub : Subclass α κ β σ) :
    Except InitError (TaskState α κ β σ × List InitEvent) :=
  match sub.models with
  | none => Except.error InitError.abstractMethod
  | some configure_models =>
    let hp := sub.initArgs
    let m0 : ModuleState α κ β σ := { model := none, params := [], extra := sub.extra0 }
    let m1 := (sub.losses.getD BaseTask.configure_losses) hp m0
    let m2 := (sub.metrics.getD BaseTask.configure_metrics) hp m1
    let m3 := configure_models hp m2
    Except.ok
      ({ monitor := sub.monitorOverride.getD BaseTask.monitor,
         hparams := hp,
         model := m3.model,
         params := m3.params,
         extra := m3.extra },
       [InitEvent.saveHyperparameters, InitEvent.callConfigureLosses,
        InitEvent.callConfigureMetrics, InitEvent.callConfigureModels])

/-- An `AdamW` optimizer instance: the parameter set it optimizes and its
learning rate. -/
structure AdamW where
  params : List Nat
  lr : ℚ
deriving DecidableEq

/-- Modelled from the spec: the consumed external primitive "an
adaptive-moment weight-decay optimizer constructor taking a parameter set and
a learning rate" (torch's `AdamW`, not part of this repository).  The learning
rate must be numeric; a non-numeric value raises `TypeError`. -/
def AdamW.make (params : List Nat) : HValue → Except ConfigError AdamW
  | HValue.num q => Except.ok { params := params, lr := q }
  | HValue.str _ => Except.error ConfigError.typeError

/-- A `ReduceLROnPlateau` scheduler instance: the optimizer it wraps and its
patience. -/
structure ReduceLROnPlateau where
  optimizer : AdamW
  patience : ℚ
deriving DecidableEq

/-- Modelled from the spec: the consumed external primitive "a
reduce-on-plateau scheduler constructor taking an optimizer and a patience
count" (torch's `ReduceLROnPlateau`, not part of this repository).  The
patience must be numeric; a non-numeric value raises `TypeError`. -/
def ReduceLROnPlateau.make (optimizer : AdamW) :
    HValue → Except ConfigError ReduceLROnPlateau
  | HValue.num q => Except.ok { optimizer := optimizer, patience := q }
  | HValue.str _ => Except.error ConfigError.typeError

/-- The inner dictionary `{"scheduler": ..., "monitor": ...}` of the returned
configuration. -/
structure LRSchedulerEntry where
  scheduler : ReduceLROnPlateau
  monitor : String
deriving DecidableEq

/-- The `OptimizerLRSchedulerConfig` dictionary returned by
`configure_optimizers`. -/
structure OptimizerLRSchedulerConfig where
  optimizer : AdamW
  lr_scheduler : LRSchedulerEntry
deriving DecidableEq

/-- Embedding of `BaseTask.configure_optimizers`: reads `self.hparams["lr"]`,
builds an `AdamW` over `self.parameters()`, reads `self.hparams["patience"]`,
wraps the optimizer in a `ReduceLROnPlateau`, and returns the configuration
dictionary; every intermediate failure propagates to the caller. -/
def BaseTask.configure_optimizers {α κ β σ : Type} (s : TaskState α κ β σ) :
    Except ConfigError OptimizerLRSchedulerConfig :=
  match HParams.getItem s.hparams "lr" with
  | Except.error e => Except.error e
  | Except.ok lrv =>
    match AdamW.make s.params lrv with
    | Except.error e => Except.error e
    | Except.ok optimizer =>
      match HParams.getItem s.hparams "patience" with
      | Except.error e => Except.error e
      | Except.ok pv =>
        match ReduceLROnPlateau.make optimizer pv with
        | Except.error e => Except.error e
        | Except.ok scheduler =>
          Except.ok
            { optimizer := optimizer,
              lr_scheduler := { scheduler := scheduler, monitor := s.monitor } }

/-- Failure of `forward`: reading `self.model` before any assignment raises
`AttributeError`. -/
inductive ForwardError where
  | attributeError
deriving DecidableEq

/-- Embedding of `BaseTask.forward`: `return self.model(*args, **kwargs)` —
reads the model slot (failing when it was never assigned) and applies the
model to the positional and keyword arguments, returning its output
unchanged. -/
def BaseTask.forward {α κ β σ : Type} (s : TaskState α κ β σ) (args : α)
    (kwargs : κ) : Except ForwardError β :=
  match s.model with
  | none => Except.error ForwardError.attributeError
  | some m => Except.ok (m args kwargs)

/-!
Helper lemmas shared by the claim theorems below.
-/

/-- When both `lr` and `patience` are present and numeric, `configure_optimizers`
returns exactly the configuration built by the source: an `AdamW` over all of
the task's trainable parameters at the stored learning rate, wrapped by a
`ReduceLROnPlateau` at the stored patience, with the task's monitor. -/
theorem configure_optimizers_eq {α κ β σ : Type} (s : TaskState α κ β σ)
    (lq pq : ℚ) (hlr : HParams.find s.hparams "lr" = some (HValue.num lq))
    (hpat : HParams.find s.hparams "patience" = some (HValue.num pq)) :
    BaseTask.configure_optimizers s =
      Except.ok
        { optimizer := { params := s.params, lr := lq },
          lr_scheduler :=
            { scheduler :=
                { optimizer := { params := s.params, lr := lq }, patience := pq },
              monitor := s.monitor } } := by
  simp [BaseTask.configure_optimizers, HParams.getItem, hlr, hpat, AdamW.make,
    ReduceLROnPlateau.make]

/-- Inversion: a successful `configure_optimizers` run pins down the shape of
the returned configuration. -/
theorem configure_optimizers_ok_cases {α κ β σ : Type} (s : TaskState α κ β σ)
    (cfg : OptimizerLRSchedulerConfig)
    (h : BaseTask.configure_optimizers s = Except.ok cfg) :
    cfg.optimizer.params = s.params ∧
    cfg.lr_scheduler.scheduler.optimizer = cfg.optimizer ∧
    cfg.lr_scheduler.monitor = s.monitor := by
  rcases hlr : HParams.find s.hparams "lr" with _ | v
  · simp [BaseTask.configure_optimizers, HParams.getItem, hlr] at h
  · rcases v with q | t
    · rcases hpat : HParams.find s.hparams "patience" with _ | w
      · simp [BaseTask.configure_optimizers, HParams.getItem, hlr, hpat,
          AdamW.make] at h
      · rcases w with p | t
        · rw [configure_optimizers_eq s q p hlr hpat] at h
          injection h with h
          subst h
          exact ⟨rfl, rfl, rfl⟩
        · simp [BaseTask.configure_optimizers, HParams.getItem, hlr, hpat,
            AdamW.make, ReduceLROnPlateau.make] at h
    · simp [BaseTask.configure_optimizers, HParams.getItem, hlr,
        AdamW.make] at h

/-- The monitor of a freshly constructed task is the subclass override when
present, `"val_loss"` otherwise. -/
theorem init_ok_monitor {α κ β σ : Type} (sub : Subclass α κ β σ)
    (s : TaskState α κ β σ) (tr : List InitEvent)
    (hinit : BaseTask.init sub = Except.ok (s, tr)) :
    s.monitor = sub.monitorOverride.getD BaseTask.monitor := by
  unfold BaseTask.init at hinit
  rcases hm : sub.models with _ | cm
  · rw [hm] at hinit
    exact Except.noConfusion hinit
  · rw [hm] at hinit
    injection hinit with hinit
    have hs := congrArg Prod.fst hinit
    simp only at hs
    rw [← hs]

/-!
Claim theorems and their witnesses and counterexamples.
-/

/-- Concrete subclass refuting claim C1: it stores `lr = 1e-3` and
`patience = 5` as hyperparameters but overrides the `monitor` class attribute
with `"accuracy"`. -/
def c1Sub : Subclass Unit Unit Unit Unit :=
  { initArgs := [("lr", HValue.num (1/1000)), ("patience", HValue.num 5)],
    losses := none,
    metrics := none,
    models := some (fun _ m => { m with model := some (fun _ _ => ()), params := [0] }),
    monitorOverride := some "accuracy",
    extra0 := () }

/-- C1 counterexample: a task constructed from a subclass that overrides
`monitor` has hyperparameters `lr = 1e-3` and `patience = 5`, yet its
`configure_optimizers` configuration carries monitor `"accuracy"`, not
`"val_loss"` as the claim states for every such task. -/
theorem c1_counterexample :
    ((BaseTask.init c1Sub).map (fun p =>
        (HParams.find p.1.hparams "lr", HParams.find p.1.hparams "patience",
         (BaseTask.configure_optimizers p.1).map fun cfg => cfg.lr_scheduler.monitor)) =
      Except.ok (some (HValue.num (1/1000)), some (HValue.num 5),
        Except.ok "accuracy")) ∧
    "accuracy" ≠ "val_loss" :=
  ⟨rfl, by decide⟩

/-- C1 (amended): for every task whose monitor attribute is the default
`"val_loss"` and whose hyperparameters hold `lr = 1e-3` and `patience = 5`,
`configure_optimizers` returns the configuration pairing one `AdamW` over all
trainable parameters at learning rate `1e-3` with a `ReduceLROnPlateau` of
patience `5` over that optimizer, monitoring `"val_loss"`. -/
theorem c1_amended_default_configuration {α κ β σ : Type} (s : TaskState α κ β σ)
    (hmon : s.monitor = "val_loss")
    (hlr : HParams.find s.hparams "lr" = some (HValue.num (1/1000)))
    (hpat : HParams.find s.hparams "patience" = some (HValue.num 5)) :
    BaseTask.configure_optimizers s =
      Except.ok
        { optimizer := { params := s.params, lr := 1/1000 },
          lr_scheduler :=
            { scheduler :=
                { optimizer := { params := s.params, lr := 1/1000 }, patience := 5 },
              monitor := "val_loss" } } := by
  rw [configure_optimizers_eq s (1/1000) 5 hlr hpat, hmon]

/-- Concrete task state exercising the amended C1. -/
def c1State : TaskState Unit Unit Unit Unit :=
  { monitor := "val_loss",
    hparams := [("lr", HValue.num (1/1000)), ("patience", HValue.num 5)],
    model := none,
    params := [1, 2],
    extra := () }

/-- Witness for the amended C1 at a concrete task state. -/
theorem c1_amended_witness :
    c1State.monitor = "val_loss" ∧
    HParams.find c1State.hparams "lr" = some (HValue.num (1/1000)) ∧
    HParams.find c1State.hparams "patience" = some (HValue.num 5) ∧
    BaseTask.configure_optimizers c1State =
      Except.ok
        { optimizer := { params := [1, 2], lr := 1/1000 },
          lr_scheduler :=
            { scheduler :=
                { optimizer := { params := [1, 2], lr := 1/1000 }, patience := 5 },
              monitor := "val_loss" } } :=
  ⟨rfl, rfl, rfl, c1_amended_default_configuration c1State rfl rfl rfl⟩

/-- C2: constructing any instance whose subclass implements `configure_models`
first persists the constructor arguments as hyperparameters (the first
recorded event, and the saved store equals the constructor arguments) and then
invokes `configure_losses`, `configure_metrics`, `configure_models`, each
exactly once, in that fixed order and with no other hook invocations. -/
theorem c2_construction_order {α κ β σ : Type} (sub : Subclass α κ β σ)
    (cm : HParams → ModuleState α κ β σ → ModuleState α κ β σ)
    (h : sub.models = some cm) :
    (BaseTask.init sub).map Prod.snd =
      Except.ok [InitEvent.saveHyperparameters, InitEvent.callConfigureLosses,
        InitEvent.callConfigureMetrics, InitEvent.callConfigureModels] ∧
    (BaseTask.init sub).map (fun p => p.1.hparams) = Except.ok sub.initArgs := by
  unfold BaseTask.init
  rw [h]
  exact ⟨rfl, rfl⟩

/-- Concrete subclass used by the C2 witness. -/
def c2Sub : Subclass Unit Unit Unit Unit :=
  { initArgs := [("lr", HValue.num 1)],
    losses := none,
    metrics := none,
    models := some (fun _ m => { m with model := some (fun _ _ => ()) }),
    monitorOverride := none,
    extra0 := () }

/-- Witness for C2 at a concrete subclass. -/
theorem c2_witness :
    c2Sub.models.isSome = true ∧
    ((BaseTask.init c2Sub).map Prod.snd =
      Except.ok [InitEvent.saveHyperparameters, InitEvent.callConfigureLosses,
        InitEvent.callConfigureMetrics, InitEvent.callConfigureModels] ∧
    (BaseTask.init c2Sub).map (fun p => p.1.hparams) = Except.ok c2Sub.initArgs) :=
  ⟨rfl, c2_construction_order c2Sub _ rfl⟩

/-- Concrete subclass refuting claim C3: it implements `configure_models` but
its implementation never assigns the `model` slot. -/
def noAssignSub : Subclass Unit Unit Unit Unit :=
  { initArgs := [],
    losses := none,
    metrics := none,
    models := some (fun _ m => m),
    monitorOverride := none,
    extra0 := () }

/-- C3 counterexample: a subclass that implements `configure_models` without
assigning `model` completes construction with `model` still null, so
implementing the hook alone does not enforce the non-null-model invariant. -/
theorem c3_counterexample :
    noAssignSub.models.isSome = true ∧
    (BaseTask.init noAssignSub).map (fun p => p.1.model.isSome) =
      Except.ok false :=
  ⟨rfl, rfl⟩

/-- C3 (amended): for every subclass whose `configure_models` implementation
always assigns a model, completing construction results in a non-null
`model`. -/
theorem c3_amended_model_nonnull {α κ β σ : Type} (sub : Subclass α κ β σ)
    (cm : HParams → ModuleState α κ β σ → ModuleState α κ β σ)
    (h : sub.models = some cm)
    (hassign : ∀ hp m, ((cm hp m).model).isSome = true) :
    (BaseTask.init sub).map (fun p => p.1.model.isSome) = Except.ok true := by
  unfold BaseTask.init
  rw [h]
  simp [Except.map, hassign]

/-- Witness for the amended C3 at a concrete subclass (reusing the assigning
subclass of the C2 witness would tie the two claims together, so a fresh one
is used). -/
def c3Sub : Subclass Unit Unit Unit Unit :=
  { initArgs := [],
    losses := none,
    metrics := none,
    models := some (fun _ m => { m with model := some (fun _ _ => ()) }),
    monitorOverride := none,
    extra0 := () }

/-- Witness for the amended C3. -/
theorem c3_amended_witness :
    c3Sub.models.isSome = true ∧
    (BaseTask.init c3Sub).map (fun p => p.1.model.isSome) = Except.ok true :=
  ⟨rfl, c3_amended_model_nonnull c3Sub _ rfl (fun _ _ => rfl)⟩

/-- C4: on a task whose model is assigned, `forward` returns exactly the
result of applying the model to the positional and keyword arguments, with no
additional pre- or post-processing. -/
theorem c4_forward_delegates {α κ β σ : Type} (s : TaskState α κ β σ)
    (m : α → κ → β) (h : s.model = some m) (args : α) (kwargs : κ) :
    BaseTask.forward s args kwargs = Except.ok (m args kwargs) := by
  unfold BaseTask.forward
  rw [h]

/-- Concrete model used by the C4 witness: adds its positional argument to the
number of keyword arguments. -/
def c4Model : Nat → List (String × Nat) → Nat :=
  fun a ks => a + ks.length

/-- Concrete task state used by the C4 witness. -/
def c4State : TaskState Nat (List (String × Nat)) Nat Unit :=
  { monitor := "val_loss",
    hparams := [],
    model := some c4Model,
    params := [],
    extra := () }

/-- Witness for C4: `forward` on the concrete task returns the model output. -/
theorem c4_witness :
    c4State.model = some c4Model ∧
    c4Model 3 [("weights", 0)] = 4 ∧
    BaseTask.forward c4State 3 [("weights", 0)] =
      Except.ok (c4Model 3 [("weights", 0)]) :=
  ⟨rfl, by decide, c4_forward_delegates c4State c4Model rfl 3 [("weights", 0)]⟩

/-- C5: instantiating the base class directly, or any subclass that leaves
`configure_models` without an implementation, fails at construction with the
abstract-method error. -/
theorem c5_abstract_instantiation_fails {α κ β σ : Type} (sub : Subclass α κ β σ)
    (h : sub.models = none) :
    BaseTask.init sub = Except.error InitError.abstractMethod := by
  unfold BaseTask.init
  rw [h]

/-- Instantiating `BaseTask` itself: no constructor arguments and no overrides
at all. -/
def baseTaskDirect : Subclass Unit Unit Unit Unit :=
  { initArgs := [],
    losses := none,
    metrics := none,
    models := none,
    monitorOverride := none,
    extra0 := () }

/-- Witness for C5 at the direct instantiation of the base class. -/
theorem c5_witness :
    baseTaskDirect.models = none ∧
    BaseTask.init baseTaskDirect = Except.error InitError.abstractMethod :=
  ⟨rfl, c5_abstract_instantiation_fails baseTaskDirect rfl⟩

/-- C6: whenever the hyperparameter store lacks `lr` or `patience`, or holds a
non-numeric value for one of them, `configure_optimizers` fails with a
missing-key or type error instead of returning a configuration. -/
theorem c6_bad_hparams_fail {α κ β σ : Type} (s : TaskState α κ β σ)
    (h : HParams.find s.hparams "lr" = none ∨
         HParams.find s.hparams "patience" = none ∨
         (∃ t, HParams.find s.hparams "lr" = some (HValue.str t)) ∨
         (∃ t, HParams.find s.hparams "patience" = some (HValue.str t))) :
    BaseTask.configure_optimizers s = Except.error (ConfigError.keyError "lr") ∨
    BaseTask.configure_optimizers s = Except.error (ConfigError.keyError "patience") ∨
    BaseTask.configure_optimizers s = Except.error ConfigError.typeError := by
  rcases h with hlr | hpat | ⟨t, hlr⟩ | ⟨t, hpat⟩
  · exact Or.inl (by simp [BaseTask.configure_optimizers, HParams.getItem, hlr])
  · rcases hlr : HParams.find s.hparams "lr" with _ | v
    · exact Or.inl (by simp [BaseTask.configure_optimizers, HParams.getItem, hlr])
    · rcases v with q | t
      · exact Or.inr (Or.inl (by
          simp [BaseTask.configure_optimizers, HParams.getItem, hlr, hpat,
            AdamW.make]))
      · exact Or.inr (Or.inr (by
          simp [BaseTask.configure_optimizers, HParams.getItem, hlr, AdamW.make]))
  · exact Or.inr (Or.inr (by
      simp [BaseTask.configure_optimizers, HParams.getItem, hlr, AdamW.make]))
  · rcases hlr : HParams.find s.hparams "lr" with _ | v
    · exact Or.inl (by simp [BaseTask.configure_optimizers, HParams.getItem, hlr])
    · rcases v with q | u
      · exact Or.inr (Or.inr (by
          simp [BaseTask.configure_optimizers, HParams.getItem, hlr, hpat,
            AdamW.make, ReduceLROnPlateau.make]))
      · exact Or.inr (Or.inr (by
          simp [BaseTask.configure_optimizers, HParams.getItem, hlr, AdamW.make]))

/-- Concrete task state with an empty hyperparameter store, used by the C6
witness. -/
def c6State : TaskState Unit Unit Unit Unit :=
  { monitor := "val_loss",
    hparams := [],
    model := none,
    params := [],
    extra := () }

/-- Witness for C6 at a task with no saved hyperparameters at all. -/
theorem c6_witness :
    BaseTask.configure_optimizers c6State = Except.error (ConfigError.keyError "lr") ∨
    BaseTask.configure_optimizers c6State = Except.error (ConfigError.keyError "patience") ∨
    BaseTask.configure_optimizers c6State = Except.error ConfigError.typeError :=
  c6_bad_hparams_fail c6State (Or.inl rfl)

/-- C7: when a subclass overrides the `monitor` attribute with a string `m`,
the configuration returned by `configure_optimizers` on the constructed task
carries `m` as the monitored key of its learning-rate-scheduler entry. -/
theorem c7_monitor_override_propagates {α κ β σ : Type} (sub : Subclass α κ β σ)
    (m : String) (hm : sub.monitorOverride = some m)
    (s : TaskState α κ β σ) (tr : List InitEvent)
    (hinit : BaseTask.init sub = Except.ok (s, tr))
    (cfg : OptimizerLRSchedulerConfig)
    (hcfg : BaseTask.configure_optimizers s = Except.ok cfg) :
    cfg.lr_scheduler.monitor = m := by
  have hmon := init_ok_monitor sub s tr hinit
  rw [hm] at hmon
  rw [(configure_optimizers_ok_cases s cfg hcfg).2.2, hmon]
  rfl

/-- Concrete subclass used by the C7 witness: overrides `monitor` with
`"overall_acc"` and stores numeric `lr` and `patience`. -/
def c7Sub : Subclass Unit Unit Unit Unit :=
  { initArgs := [("lr", HValue.num 1), ("patience", HValue.num 2)],
    losses := none,
    metrics := none,
    models := some (fun _ m => { m with model := some (fun _ _ => ()) }),
    monitorOverride := some "overall_acc",
    extra0 := () }

/-- The task state `BaseTask.init c7Sub` produces. -/
def c7State : TaskState Unit Unit Unit Unit :=
  { monitor := "overall_acc",
    hparams := [("lr", HValue.num 1), ("patience", HValue.num 2)],
    model := some (fun _ _ => ()),
    params := [],
    extra := () }

/-- The configuration `configure_optimizers` returns on `c7State`. -/
def c7Cfg : OptimizerLRSchedulerConfig :=
  { optimizer := { params := [], lr := 1 },
    lr_scheduler :=
      { scheduler := { optimizer := { params := [], lr := 1 }, patience := 2 },
        monitor := "overall_acc" } }

/-- Witness for C7 at a concrete monitor-overriding subclass. -/
theorem c7_witness :
    c7Sub.monitorOverride = some "overall_acc" ∧
    BaseTask.init c7Sub =
      Except.ok (c7State,
        [InitEvent.saveHyperparameters, InitEvent.callConfigureLosses,
         InitEvent.callConfigureMetrics, InitEvent.callConfigureModels]) ∧
    BaseTask.configure_optimizers c7State = Except.ok c7Cfg ∧
    c7Cfg.lr_scheduler.monitor = "overall_acc" :=
  ⟨rfl, rfl, rfl,
    c7_monitor_override_propagates c7Sub "overall_acc" rfl c7State
      [InitEvent.saveHyperparameters, InitEvent.callConfigureLosses,
       InitEvent.callConfigureMetrics, InitEvent.callConfigureModels]
      rfl c7Cfg rfl⟩

/-- C8: calling `forward` on a task whose `model` slot was never assigned
fails with the attribute error. -/
theorem c8_forward_unset_model {α κ β σ : Type} (s : TaskState α κ β σ)
    (h : s.model = none) (args : α) (kwargs : κ) :
    BaseTask.forward s args kwargs = Except.error ForwardError.attributeError := by
  unfold BaseTask.forward
  rw [h]

/-- Concrete task state with no model, used by the C8 witness. -/
def c8State : TaskState Unit Unit Unit Unit :=
  { monitor := "val_loss",
    hparams := [],
    model := none,
    params := [],
    extra := () }

/-- Witness for C8 at a concrete model-less task. -/
theorem c8_witness :
    c8State.model = none ∧
    BaseTask.forward c8State () () = Except.error ForwardError.attributeError :=
  ⟨rfl, c8_forward_unset_model c8State rfl () ()⟩

/-- C9: the default (non-overridden) `configure_losses` and
`configure_metrics` hooks are no-ops: on every hyperparameter store and every
module state, each returns the state unchanged (in the source both bodies are
empty and return `None`), so every field of the task is left unchanged. -/
theorem c9_default_hooks_noop {α κ β σ : Type} (hp : HParams)
    (m : ModuleState α κ β σ) :
    BaseTask.configure_losses hp m = m ∧ BaseTask.configure_metrics hp m = m :=
  ⟨rfl, rfl⟩

/-- C10: whenever `configure_optimizers` succeeds, the scheduler in the
returned configuration's `lr_scheduler` entry wraps exactly the optimizer
returned under the configuration's `optimizer` key. -/
theorem c10_scheduler_wraps_optimizer {α κ β σ : Type} (s : TaskState α κ β σ)
    (cfg : OptimizerLRSchedulerConfig)
    (h : BaseTask.configure_optimizers s = Except.ok cfg) :
    cfg.lr_scheduler.scheduler.optimizer = cfg.optimizer :=
  (configure_optimizers_ok_cases s cfg h).2.1

/-- Concrete task state used by the C10 witness. -/
def c10State : TaskState Unit Unit Unit Unit :=
  { monitor := "val_loss",
    hparams := [("lr", HValue.num (1/100)), ("patience", HValue.num 3)],
    model := none,
    params := [7],
    extra := () }

/-- The configuration `configure_optimizers` returns on `c10State`. -/
def c10Cfg : OptimizerLRSchedulerConfig :=
  { optimizer := { params := [7], lr := 1/100 },
    lr_scheduler :=
      { scheduler := { optimizer := { params := [7], lr := 1/100 }, patience := 3 },
        monitor := "val_loss" } }

/-- Witness for C10 at a concrete task state. -/
theorem c10_witness :
    BaseTask.configure_optimizers c10State = Except.ok c10Cfg ∧
    c10Cfg.lr_scheduler.scheduler.optimizer = c10Cfg.optimizer :=
  ⟨rfl, c10_scheduler_wraps_optimizer c10State c10Cfg rfl⟩

end TorchGeo
